import Mathlib

/-!
Shallow embedding of the chat broadcast subsystem of `src/app04/src/main.rs`
(actix-web websocket chat server).

Modelling conventions:
* `Uuid::new_v4()` and `SystemTime::now()` are nondeterministic; every
  operation that generates a fresh message id or timestamp receives them as
  explicit parameters (`mid`, `ts`).
* `Addr<ChatSession>` (the delivery handle) is modelled by a key into a map
  of per-session inboxes; `addr.do_send(WsMessage s)` becomes appending the
  message to that inbox.  In the running program each session registers its
  own address, so the handle of session `sid` is modelled by the key `sid`.
* `HashMap<String, Addr<ChatSession>>` is modelled by an association list
  with HashMap insert/remove semantics (insert replaces the value of an
  existing key; remove drops the key if present).
* `serde_json::from_str::<WebSocketMessage>` with `#[serde(default)]` on all
  fields is modelled on a simplified JSON value: either not a conforming
  object (parse failure) or an object with three optional string fields,
  absent fields defaulting to the empty string.
-/

/-- Rust `struct ChatMessage` (main.rs lines 14-20): id, username, message,
timestamp (u64 seconds). -/
structure ChatMessage where
  id : String
  username : String
  message : String
  timestamp : Nat
  deriving DecidableEq, Repr

/-- Rust `struct ClientMessage` (main.rs lines 68-74): session id, text and
author name forwarded to the hub. -/
structure ClientMessage where
  id : String
  msg : String
  username : String
  deriving DecidableEq, Repr

/-- HashMap::insert semantics on an association list: replace the value of
an existing key in place, otherwise add the binding at the end. -/
def alInsert (k v : String) : List (String × String) → List (String × String)
  | [] => [(k, v)]
  | (k', v') :: t => if k = k' then (k, v) :: t else (k', v') :: alInsert k v t

/-- HashMap::remove semantics on an association list. -/
def alRemove (k : String) (l : List (String × String)) : List (String × String) :=
  l.filter (fun p => p.1 ≠ k)

/-- HashMap::get semantics on an association list. -/
def alLookup (k : String) : List (String × String) → Option String
  | [] => none
  | (k', v') :: t => if k = k' then some v' else alLookup k t

/-- Combined state of the running system.

`sessions` and `messages` are the fields of `struct ChatServer`
(main.rs lines 23-26): the registry of session id → delivery handle, and the
append-only history buffer.  `inbox a` is the sequence of `WsMessage`
payloads delivered to the session whose address is `a` via `do_send`
(handled at main.rs lines 180-186 by writing each to the transport).
`uname s` is the `username` field of the `ChatSession` object `s`
(session-local state, main.rs lines 125-129). -/
structure SysState where
  sessions : List (String × String)
  messages : List ChatMessage
  inbox : String → List ChatMessage
  uname : String → String

/-- Deliver message `m` to each address in `addrs` in turn: the loop
`for (_id, addr) in &self.sessions { addr.do_send(...) }`. -/
def sendAll (addrs : List String) (m : ChatMessage) (f : String → List ChatMessage) :
    String → List ChatMessage :=
  addrs.foldl (fun g a => fun x => if x = a then g x ++ [m] else g x) f

/-- Model of `ChatServer::broadcast_message` (main.rs lines 37-44): push the message
onto the history, then `do_send` it to every registered session. -/
def broadcast_message (st : SysState) (m : ChatMessage) : SysState :=
  { st with
    messages := st.messages ++ [m],
    inbox := sendAll (st.sessions.map Prod.snd) m st.inbox }

/-- Model of `impl Handler<Connect> for ChatServer` (main.rs lines 77-92): insert the
new session, then look its handle up again and replay the full history to it
in order.  NOTE: no `Connect` message is ever sent anywhere in main.rs, so
this handler is unreachable in the running program; the live registration
path is `ChatSession::started` below. -/
def handle_connect (st : SysState) (id addr : String) : SysState :=
  let st1 := { st with sessions := alInsert id addr st.sessions }
  match alLookup id st1.sessions with
  | some a =>
      let replay := st1.messages.foldl
        (fun f msg => fun x => if x = a then f x ++ [msg] else f x) st1.inbox
      { st1 with inbox := replay }
  | none => st1

/-- Model of `impl Handler<Disconnect> for ChatServer` (main.rs lines 95-101): remove
the session id from the registry.  Like `Connect`, no `Disconnect` message is
ever sent; the live removal path is `ChatSession::stopping` below. -/
def handle_disconnect (st : SysState) (id : String) : SysState :=
  { st with sessions := alRemove id st.sessions }

/-- Model of `impl Handler<ClientMessage> for ChatServer` (main.rs lines 104-122):
build a ChatMessage with a fresh id and current timestamp from the client
message and broadcast it.  Also dead code in the running program: the
`ClientMessage` value built in the stream handler is never sent to the hub. -/
def handle_client_message (st : SysState) (cm : ClientMessage) (mid : String) (ts : Nat) :
    SysState :=
  broadcast_message st
    { id := mid, username := cm.username, message := cm.msg, timestamp := ts }

/-- Model of `ChatSession::started` (main.rs lines 135-155): insert this session
(keyed by its id, value its own address) directly into the server registry,
then broadcast a system "entrou no chat" notice.  It does NOT send a
`Connect` message, so no history is replayed to the newcomer. -/
def session_started (st : SysState) (sid mid : String) (ts : Nat) : SysState :=
  let st1 := { st with sessions := alInsert sid sid st.sessions }
  broadcast_message st1
    { id := mid, username := "sistema",
      message := st.uname sid ++ " entrou no chat", timestamp := ts }

/-- Model of `ChatSession::stopping` (main.rs lines 157-171): remove this session from
the registry, then broadcast a system "saiu do chat" notice (the departed
session is already removed, so it is not a recipient). -/
def session_stopping (st : SysState) (sid mid : String) (ts : Nat) : SysState :=
  let st1 := { st with sessions := alRemove sid st.sessions }
  broadcast_message st1
    { id := mid, username := "sistema",
      message := st.uname sid ++ " saiu do chat", timestamp := ts }

/-- A JSON object as far as `struct WebSocketMessage` is concerned: the three
recognised fields, each possibly absent. -/
structure JsonObj where
  action : Option String
  message : Option String
  username : Option String
  deriving DecidableEq, Repr

/-- Rust `struct WebSocketMessage` (main.rs lines 189-197), all fields
`#[serde(default)]`. -/
structure WebSocketMessage where
  action : String
  message : String
  username : String
  deriving DecidableEq, Repr

/-- Model of `serde_json::from_str::<WebSocketMessage>` on an inbound text frame:
`none` models text that is not a conforming JSON object (parse error);
otherwise every absent field takes the serde default, the empty string. -/
def parseWebSocketMessage : Option JsonObj → Option WebSocketMessage
  | none => none
  | some j => some { action := j.action.getD "", message := j.message.getD "",
                     username := j.username.getD "" }

/-- An inbound websocket frame, as matched at main.rs lines 202-263.
`text none` is a text frame whose payload fails to parse. -/
inductive WsFrame where
  | text (payload : Option JsonObj)
  | ping
  | close
  | other
  deriving DecidableEq, Repr

/-- Model of `impl StreamHandler<...> for ChatSession` (main.rs lines 200-266),
processing one frame for session `sid`.  Returns the new state and whether
`ctx.stop()` was called (session teardown triggered).

The `"message"` arm (lines 208-230): default an empty username to "Anônimo",
build a `ClientMessage` (which is then only read back locally), and broadcast
a ChatMessage authored by this session directly on the server.
The `"setUsername"` arm (lines 231-247): set the new name and broadcast a
system rename notice only if the old name was non-empty and different.
Unknown actions (lines 248-250) and parse failures (lines 252-254) are
logged and ignored.  `Ping` answers with a pong (no state change), `Close`
closes and stops the session, anything else is ignored. -/
def stream_handle (st : SysState) (sid : String) (frame : WsFrame) (mid : String) (ts : Nat) :
    SysState × Bool :=
  match frame with
  | WsFrame.text payload =>
    match parseWebSocketMessage payload with
    | some m =>
      if m.action = "message" then
        let st1 := if st.uname sid = "" then
            { st with uname := fun a => if a = sid then "Anônimo" else st.uname a }
          else st
        let message : ClientMessage :=
          { id := sid, msg := m.message, username := st1.uname sid }
        (broadcast_message st1
          { id := mid, username := st1.uname sid, message := message.msg,
            timestamp := ts }, false)
      else if m.action = "setUsername" then
        let old_name := st.uname sid
        let st1 := { st with uname := fun a => if a = sid then m.username else st.uname a }
        if old_name ≠ "" ∧ old_name ≠ m.username then
          (broadcast_message st1
            { id := mid, username := "sistema",
              message := old_name ++ " agora é conhecido como " ++ m.username,
              timestamp := ts }, false)
        else (st1, false)
      else (st, false)
    | none => (st, false)
  | WsFrame.ping => (st, false)
  | WsFrame.close => (st, true)
  | WsFrame.other => (st, false)

/-- External stimuli in the order the mutex of the hub serialises them, as the
program actually executes them:
* `connect sid u0 mid ts`: the `/ws/` route builds a `ChatSession` with
  fresh id `sid` and path username `u0` (main.rs lines 269-288) and
  `ChatSession::started` runs, with fresh notice id `mid` and timestamp `ts`;
* `disconnect sid mid ts`: `ChatSession::stopping` runs for `sid`;
* `frame sid f mid ts`: the stream handler processes frame `f` for `sid`. -/
inductive Event where
  | connect (sid u0 mid : String) (ts : Nat)
  | disconnect (sid mid : String) (ts : Nat)
  | frame (sid : String) (f : WsFrame) (mid : String) (ts : Nat)
  deriving DecidableEq, Repr

/-- One serialized step of the running system. -/
def step (st : SysState) : Event → SysState
  | Event.connect sid u0 mid ts =>
      session_started
        { st with uname := fun a => if a = sid then u0 else st.uname a } sid mid ts
  | Event.disconnect sid mid ts => session_stopping st sid mid ts
  | Event.frame sid f mid ts => (stream_handle st sid f mid ts).1

/-- Initial state, `ChatServer::new()` plus no sessions started: empty registry, empty
history, empty inboxes, no session objects (username defaults irrelevant). -/
def init : SysState :=
  { sessions := [], messages := [], inbox := fun _ => [], uname := fun _ => "" }

/-- Process a list of events in order. -/
def run (st : SysState) (evs : List Event) : SysState :=
  evs.foldl step st

/-- Event trace for the hub actor handlers themselves
(`Handler<Connect>` / `Handler<Disconnect>` / `Handler<ClientMessage>`). -/
inductive HubEvent where
  | conn (id addr : String)
  | disc (id : String)
  | clientMsg (cm : ClientMessage) (mid : String) (ts : Nat)
  deriving DecidableEq, Repr

/-- One step of the hub actor message loop. -/
def hubStep (st : SysState) : HubEvent → SysState
  | HubEvent.conn id addr => handle_connect st id addr
  | HubEvent.disc id => handle_disconnect st id
  | HubEvent.clientMsg cm mid ts => handle_client_message st cm mid ts

/-- Process a list of hub events in order. -/
def hubRun (st : SysState) (evs : List HubEvent) : SysState :=
  evs.foldl hubStep st

/-- The ChatMessages a hub trace constructs via `handle_client_message`,
in processing order. -/
def clientMsgsOf (evs : List HubEvent) : List ChatMessage :=
  evs.filterMap fun e =>
    match e with
    | HubEvent.clientMsg cm mid ts =>
        some { id := mid, username := cm.username, message := cm.msg, timestamp := ts }
    | _ => none

/-- One step of the "has a connect for `id` been processed with no
subsequent disconnect for `id`" recogniser. -/
def activeStep (id : String) (b : Bool) : Event → Bool
  | Event.connect sid _ _ _ => if sid = id then true else b
  | Event.disconnect sid _ _ => if sid = id then false else b
  | Event.frame _ _ _ _ => b

/-- Whether, after `evs`, a connect for `id` has been processed with no
subsequent disconnect for `id`. -/
def activeAfter (evs : List Event) (id : String) : Bool :=
  evs.foldl (activeStep id) false

/-- The session whose display name, once defaulted, authors a chat message:
the `if self.username.is_empty()` defaulting at main.rs lines 210-212. -/
def effName (st : SysState) (sid : String) : String :=
  if st.uname sid = "" then "Anônimo" else st.uname sid

/-- The system join notice broadcast by `ChatSession::started`. -/
def joinNotice (st : SysState) (sid mid : String) (ts : Nat) : ChatMessage :=
  { id := mid, username := "sistema",
    message := st.uname sid ++ " entrou no chat", timestamp := ts }

/-- The system leave notice broadcast by `ChatSession::stopping`. -/
def leaveNotice (st : SysState) (sid mid : String) (ts : Nat) : ChatMessage :=
  { id := mid, username := "sistema",
    message := st.uname sid ++ " saiu do chat", timestamp := ts }

/-- Concrete trace: alice connects, sends "hi", then bob connects.  Used to
evaluate the embedded system on the replay scenario of the spec. -/
def trace1 : List Event :=
  [ Event.connect "s1" "alice" "m1" 1,
    Event.frame "s1"
      (WsFrame.text (some { action := some "message", message := some "hi",
                            username := none })) "m2" 2,
    Event.connect "s2" "bob" "m3" 3 ]

/-- A small concrete state: one registered session `s1` with display name
"alice", empty history and inboxes. -/
def demoSt : SysState :=
  { sessions := [("s1", "s1")], messages := [],
    inbox := fun _ => [], uname := fun a => if a = "s1" then "alice" else "" }

/-! ### Basic lemmas about the embedded operations -/

theorem sendAll_apply (m : ChatMessage) (addrs : List String) :
    ∀ (f : String → List ChatMessage) (a : String),
      sendAll addrs m f a = f a ++ List.replicate (addrs.count a) m := by
  induction addrs with
  | nil => intro f a; simp [sendAll]
  | cons b t ih =>
    intro f a
    show sendAll t m (fun x => if x = b then f x ++ [m] else f x) a = _
    rw [ih]
    by_cases hab : a = b
    · subst hab
      simp [List.count_cons, List.replicate_succ, List.append_assoc]
    · have hba : (b == a) = false := by
        simp [hab]
        intro h
        exact absurd h.symm hab
      simp [List.count_cons, hab, hba]

theorem broadcast_message_sessions (st : SysState) (m : ChatMessage) :
    (broadcast_message st m).sessions = st.sessions := rfl

theorem broadcast_message_messages (st : SysState) (m : ChatMessage) :
    (broadcast_message st m).messages = st.messages ++ [m] := rfl

theorem broadcast_message_uname (st : SysState) (m : ChatMessage) :
    (broadcast_message st m).uname = st.uname := rfl

theorem broadcast_message_inbox (st : SysState) (m : ChatMessage) (a : String) :
    (broadcast_message st m).inbox a =
      st.inbox a ++ List.replicate ((st.sessions.map Prod.snd).count a) m :=
  sendAll_apply m (st.sessions.map Prod.snd) st.inbox a

theorem replicate_subset_singleton (n : Nat) (m : ChatMessage) :
    List.replicate n m ⊆ [m] := by
  intro x hx
  rw [List.mem_replicate] at hx
  simp [hx.2]

theorem mem_keys_alInsert (k v : String) (l : List (String × String)) (a : String) :
    a ∈ (alInsert k v l).map Prod.fst ↔ a = k ∨ a ∈ l.map Prod.fst := by
  induction l with
  | nil => simp [alInsert]
  | cons p t ih =>
    obtain ⟨k', v'⟩ := p
    by_cases hk : k = k'
    · subst hk
      rw [show alInsert k v ((k, v') :: t) = (k, v) :: t from by simp [alInsert]]
      simp only [List.map_cons, List.mem_cons]
      tauto
    · rw [show alInsert k v ((k', v') :: t) = (k', v') :: alInsert k v t from by
        simp [alInsert, hk]]
      simp only [List.map_cons, List.mem_cons, ih]
      tauto

theorem nodup_keys_alInsert (k v : String) (l : List (String × String))
    (h : (l.map Prod.fst).Nodup) : ((alInsert k v l).map Prod.fst).Nodup := by
  induction l with
  | nil => simp [alInsert]
  | cons p t ih =>
    obtain ⟨k', v'⟩ := p
    simp only [List.map_cons, List.nodup_cons] at h
    by_cases hk : k = k'
    · subst hk
      rw [show alInsert k v ((k, v') :: t) = (k, v) :: t from by simp [alInsert]]
      simpa only [List.map_cons, List.nodup_cons] using h
    · rw [show alInsert k v ((k', v') :: t) = (k', v') :: alInsert k v t from by
        simp [alInsert, hk]]
      simp only [List.map_cons, List.nodup_cons]
      refine ⟨?_, ih h.2⟩
      rw [mem_keys_alInsert]
      rintro (rfl | hmem)
      · exact hk rfl
      · exact h.1 hmem

theorem mem_keys_alRemove (k : String) (l : List (String × String)) (a : String) :
    a ∈ (alRemove k l).map Prod.fst ↔ a ∈ l.map Prod.fst ∧ a ≠ k := by
  simp only [alRemove, List.mem_map, List.mem_filter, decide_eq_true_eq]
  constructor
  · rintro ⟨p, ⟨hp, hne⟩, rfl⟩
    exact ⟨⟨p, hp, rfl⟩, hne⟩
  · rintro ⟨⟨p, hp, rfl⟩, hne⟩
    exact ⟨p, ⟨hp, hne⟩, rfl⟩

theorem nodup_keys_alRemove (k : String) (l : List (String × String))
    (h : (l.map Prod.fst).Nodup) : ((alRemove k l).map Prod.fst).Nodup :=
  h.sublist ((List.filter_sublist l).map Prod.fst)

theorem alRemove_alRemove (k : String) (l : List (String × String)) :
    alRemove k (alRemove k l) = alRemove k l := by
  simp [alRemove, List.filter_filter]

theorem alRemove_of_not_mem (k : String) (l : List (String × String))
    (h : k ∉ l.map Prod.fst) : alRemove k l = l := by
  rw [alRemove, List.filter_eq_self]
  intro p hp
  simp only [decide_eq_true_eq]
  intro hpk
  exact h (List.mem_map.mpr ⟨p, hp, hpk⟩)

theorem snd_not_mem_alRemove (k : String) (l : List (String × String))
    (h : ∀ p ∈ l, p.2 = p.1) : k ∉ (alRemove k l).map Prod.snd := by
  intro hmem
  obtain ⟨p, hp, hpk⟩ := List.mem_map.mp hmem
  have hp' := List.mem_filter.mp hp
  have h2 := h p hp'.1
  have h3 : p.1 ≠ k := by simpa using hp'.2
  exact h3 (by rw [← h2, hpk])

theorem alLookup_alInsert (k v : String) (l : List (String × String)) :
    alLookup k (alInsert k v l) = some v := by
  induction l with
  | nil => simp [alInsert, alLookup]
  | cons p t ih =>
    obtain ⟨k', v'⟩ := p
    by_cases hk : k = k'
    · subst hk
      simp [alInsert, alLookup]
    · simp [alInsert, alLookup, hk, ih]

theorem stream_handle_sessions (st : SysState) (sid : String) (f : WsFrame)
    (mid : String) (ts : Nat) :
    ((stream_handle st sid f mid ts).1).sessions = st.sessions := by
  cases f with
  | text payload =>
    cases payload with
    | none => rfl
    | some j =>
      simp only [stream_handle, parseWebSocketMessage]
      split
      · split <;> rfl
      · split
        · split <;> rfl
        · rfl
  | ping => rfl
  | close => rfl
  | other => rfl

theorem step_connect_sessions (st : SysState) (sid u0 mid : String) (ts : Nat) :
    (step st (Event.connect sid u0 mid ts)).sessions = alInsert sid sid st.sessions := rfl

theorem step_disconnect_sessions (st : SysState) (sid mid : String) (ts : Nat) :
    (step st (Event.disconnect sid mid ts)).sessions = alRemove sid st.sessions := rfl

theorem step_frame_sessions (st : SysState) (sid : String) (f : WsFrame)
    (mid : String) (ts : Nat) :
    (step st (Event.frame sid f mid ts)).sessions = st.sessions :=
  stream_handle_sessions st sid f mid ts

theorem run_registry (evs : List Event) :
    ∀ (st : SysState) (b : Bool) (id : String),
      (st.sessions.map Prod.fst).Nodup →
      (id ∈ st.sessions.map Prod.fst ↔ b = true) →
      ((run st evs).sessions.map Prod.fst).Nodup ∧
        (id ∈ (run st evs).sessions.map Prod.fst ↔ evs.foldl (activeStep id) b = true) := by
  induction evs with
  | nil => intro st b id hN hb; exact ⟨hN, hb⟩
  | cons e t ih =>
    intro st b id hN hb
    have hstep : ((step st e).sessions.map Prod.fst).Nodup ∧
        (id ∈ (step st e).sessions.map Prod.fst ↔ activeStep id b e = true) := by
      cases e with
      | connect sid u0 mid ts =>
        rw [step_connect_sessions]
        refine ⟨nodup_keys_alInsert sid sid st.sessions hN, ?_⟩
        rw [mem_keys_alInsert]
        by_cases h : sid = id
        · subst h; simp [activeStep]
        · have h' : ¬ id = sid := fun hh => h hh.symm
          simp [activeStep, h, h', hb]
      | disconnect sid mid ts =>
        rw [step_disconnect_sessions]
        refine ⟨nodup_keys_alRemove sid st.sessions hN, ?_⟩
        rw [mem_keys_alRemove]
        by_cases h : sid = id
        · subst h; simp [activeStep]
        · have h' : ¬ id = sid := fun hh => h hh.symm
          simp [activeStep, h, h', hb]
      | frame sid f mid ts =>
        rw [step_frame_sessions]
        exact ⟨hN, hb⟩
    have := ih (step st e) (activeStep id b e) id hstep.1 hstep.2
    exact this

theorem replayFold_apply (msgs : List ChatMessage) :
    ∀ (f : String → List ChatMessage) (addr a : String),
      (msgs.foldl (fun f msg => fun x => if x = addr then f x ++ [msg] else f x) f) a
        = f a ++ (if a = addr then msgs else []) := by
  induction msgs with
  | nil => intro f addr a; split <;> simp
  | cons msg t ih =>
    intro f addr a
    show (t.foldl _ (fun x => if x = addr then f x ++ [msg] else f x)) a = _
    rw [ih]
    by_cases h : a = addr
    · simp [h]
    · simp [h]

theorem handle_connect_sessions (st : SysState) (id addr : String) :
    (handle_connect st id addr).sessions = alInsert id addr st.sessions := by
  simp only [handle_connect]
  split <;> rfl

theorem handle_connect_messages (st : SysState) (id addr : String) :
    (handle_connect st id addr).messages = st.messages := by
  simp only [handle_connect]
  split <;> rfl

/-- The dead `Handler<Connect>` code, had it ever been invoked, would replay
the full history in order to the newcomer and deliver nothing to anyone
else. -/
theorem handle_connect_inbox (st : SysState) (id addr a : String) :
    (handle_connect st id addr).inbox a =
      st.inbox a ++ (if a = addr then st.messages else []) := by
  simp only [handle_connect, alLookup_alInsert]
  exact replayFold_apply st.messages st.inbox addr a

theorem hubStep_messages (st : SysState) (e : HubEvent) :
    (hubStep st e).messages = st.messages ++
      (match e with
       | HubEvent.clientMsg cm mid ts =>
           [{ id := mid, username := cm.username, message := cm.msg, timestamp := ts }]
       | _ => []) := by
  cases e with
  | conn id addr => rw [hubStep, handle_connect_messages]; simp
  | disc id => simp [hubStep, handle_disconnect]
  | clientMsg cm mid ts => rfl

theorem hubRun_messages (evs : List HubEvent) :
    ∀ st : SysState, (hubRun st evs).messages = st.messages ++ clientMsgsOf evs := by
  induction evs with
  | nil => intro st; simp [hubRun, clientMsgsOf]
  | cons e t ih =>
    intro st
    show (hubRun (hubStep st e) t).messages = _
    rw [ih, hubStep_messages]
    cases e <;> simp [clientMsgsOf, List.filterMap_cons]

/-! ### Claim theorems -/

/-- Claim C4: after any sequence of connect, disconnect and frame events the
registry holds at most one entry per session id, and holds exactly the ids
for which a connect has been processed with no subsequent disconnect. -/
theorem chat_C4_registry (evs : List Event) (id : String) :
    (((run init evs).sessions.map Prod.fst).Nodup) ∧
      (id ∈ (run init evs).sessions.map Prod.fst ↔ activeAfter evs id = true) :=
  run_registry evs init false id (by simp [init]) (by simp [init])

/-- Claim C3: every message broadcast via handle_client_message is appended
to the history buffer, in the order the client-message events were
processed; when the generated messages are pairwise distinct (fresh UUIDs)
each appears exactly once. -/
theorem chat_C3_history (evs : List HubEvent) :
    (hubRun init evs).messages = clientMsgsOf evs ∧
      ((clientMsgsOf evs).Nodup →
        ∀ m ∈ clientMsgsOf evs, ((hubRun init evs).messages).count m = 1) := by
  have h0 : (hubRun init evs).messages = clientMsgsOf evs := by
    simpa [init] using hubRun_messages evs init
  refine ⟨h0, fun hnd m hm => ?_⟩
  rw [h0]
  exact List.count_eq_one_of_mem hnd hm

/-- A concrete two-message hub trace. -/
def hubTrace2 : List HubEvent :=
  [ HubEvent.clientMsg { id := "s1", msg := "hi", username := "alice" } "m1" 5,
    HubEvent.clientMsg { id := "s1", msg := "oi", username := "alice" } "m2" 6 ]

/-- Witness for C3 at a concrete two-message hub trace. -/
theorem chat_C3_history_witness :
    (hubRun init hubTrace2).messages = clientMsgsOf hubTrace2 ∧
      ((hubRun init hubTrace2).messages).count
        { id := "m1", username := "alice", message := "hi", timestamp := 5 } = 1 := by
  have h := chat_C3_history hubTrace2
  exact ⟨h.1, h.2 (by decide) _ (by decide)⟩

/-- Claim C1 (refuted by the running code): a session connecting after
earlier broadcasts receives its own join notice but none of the history.
In the trace where alice connects, alice sends "hi" and then bob connects,
the "hi" message sits in the history buffer yet the inbox of the session of bob
holds only the join notice of bob: `ChatSession::started` never sends a `Connect`
message, so the history replay in `Handler<Connect>` is unreachable. -/
theorem chat_C1_no_replay :
    ({ id := "m2", username := "alice", message := "hi", timestamp := 2 } : ChatMessage)
        ∈ (run init trace1).messages ∧
      (run init trace1).inbox "s2" =
        [{ id := "m3", username := "sistema", message := "bob entrou no chat",
           timestamp := 3 }] ∧
      ({ id := "m2", username := "alice", message := "hi", timestamp := 2 } : ChatMessage)
        ∉ (run init trace1).inbox "s2" :=
  ⟨by decide, by decide, by decide⟩

/-- Claim C2 counterexample: a payload with action "message" and no
`message` field IS processed as a chat message.  For the registered session
"s1" with display name "alice", the frame decodes with the serde default
empty body and a ChatMessage authored "alice" is appended to the history and
delivered to "s1". -/
theorem chat_C2_counterexample :
    ((stream_handle demoSt "s1"
        (WsFrame.text (some { action := some "message", message := none,
                              username := none })) "m1" 5).1).messages =
      [{ id := "m1", username := "alice", message := "", timestamp := 5 }] ∧
    ((stream_handle demoSt "s1"
        (WsFrame.text (some { action := some "message", message := none,
                              username := none })) "m1" 5).1).inbox "s1" =
      [{ id := "m1", username := "alice", message := "", timestamp := 5 }] :=
  ⟨by decide, by decide⟩

/-- Claim C2 as amended: the `message` field is optional for action
"message"; when it is absent the payload decodes with the serde default
empty body, and a ChatMessage whose author is the effective
display name and whose body is empty is broadcast. -/
theorem chat_C2_amended (st : SysState) (sid : String) (j : JsonObj) (mid : String)
    (ts : Nat) (ha : j.action = some "message") (hm : j.message = none) :
    ((stream_handle st sid (WsFrame.text (some j)) mid ts).1).messages =
      st.messages ++
        [{ id := mid, username := effName st sid, message := "", timestamp := ts }] ∧
    (stream_handle st sid (WsFrame.text (some j)) mid ts).2 = false := by
  simp only [stream_handle, parseWebSocketMessage, ha, hm, Option.getD_some,
    Option.getD_none]
  rw [if_pos trivial]
  by_cases h : st.uname sid = ""
  · rw [if_pos h]
    constructor
    · simp [broadcast_message, effName, h]
    · rfl
  · rw [if_neg h]
    constructor
    · simp [broadcast_message, effName, h]
    · rfl

/-- Witness for the amended C2 at a concrete session and payload. -/
theorem chat_C2_amended_witness :
    ((stream_handle demoSt "s1"
        (WsFrame.text (some { action := some "message", message := none,
                              username := none })) "m1" 5).1).messages =
      demoSt.messages ++
        [{ id := "m1", username := effName demoSt "s1", message := "", timestamp := 5 }] ∧
    (stream_handle demoSt "s1"
        (WsFrame.text (some { action := some "message", message := none,
                              username := none })) "m1" 5).2 = false :=
  chat_C2_amended demoSt "s1"
    { action := some "message", message := none, username := none } "m1" 5 rfl rfl

/-- Claim C5: disconnect processing (ChatSession::stopping) removes the id
if present, is idempotent on the registry, leaves the registry untouched for
a never-registered id, appends a system "saiu do chat" notice to the history
and delivers it once to every remaining registered session, and delivers
nothing to the departed session. -/
theorem chat_C5_disconnect (st : SysState) (sid mid mid2 : String) (ts ts2 : Nat) :
    ((session_stopping st sid mid ts).sessions = alRemove sid st.sessions) ∧
    ((session_stopping (session_stopping st sid mid ts) sid mid2 ts2).sessions =
      (session_stopping st sid mid ts).sessions) ∧
    (sid ∉ st.sessions.map Prod.fst →
      (session_stopping st sid mid ts).sessions = st.sessions) ∧
    ((session_stopping st sid mid ts).messages =
      st.messages ++ [leaveNotice st sid mid ts]) ∧
    (∀ a, (session_stopping st sid mid ts).inbox a =
      st.inbox a ++
        List.replicate (((alRemove sid st.sessions).map Prod.snd).count a)
          (leaveNotice st sid mid ts)) ∧
    ((∀ p ∈ st.sessions, p.2 = p.1) →
      (session_stopping st sid mid ts).inbox sid = st.inbox sid) := by
  refine ⟨rfl, ?_, ?_, rfl, ?_, ?_⟩
  · show alRemove sid (alRemove sid st.sessions) = alRemove sid st.sessions
    exact alRemove_alRemove sid st.sessions
  · intro h
    show alRemove sid st.sessions = st.sessions
    exact alRemove_of_not_mem sid st.sessions h
  · intro a
    exact broadcast_message_inbox _ _ a
  · intro h
    have h0 : (((alRemove sid st.sessions).map Prod.snd).count sid) = 0 :=
      List.count_eq_zero.mpr (snd_not_mem_alRemove sid st.sessions h)
    have h1 := broadcast_message_inbox
      { st with sessions := alRemove sid st.sessions } (leaveNotice st sid mid ts) sid
    simpa [h0] using h1

/-- Witness for C5: removing a never-registered id changes nothing in the
registry and delivers nothing to that id. -/
theorem chat_C5_disconnect_witness :
    ((session_stopping demoSt "zz" "m7" 7).sessions = demoSt.sessions) ∧
    ((session_stopping demoSt "zz" "m7" 7).inbox "zz" = demoSt.inbox "zz") := by
  have h := chat_C5_disconnect demoSt "zz" "m7" "m8" 7 8
  exact ⟨h.2.2.1 (by decide), h.2.2.2.2.2 (by decide)⟩

/-- Claim C6: a "setUsername" frame sets the session display name to the
requested username, and a system rename notice is broadcast (appended to
history and delivered to each registered session) exactly when the old name
was non-empty and differs from the new one. -/
theorem chat_C6_rename (st : SysState) (sid : String) (j : JsonObj) (mid : String)
    (ts : Nat) (ha : j.action = some "setUsername") :
    (((stream_handle st sid (WsFrame.text (some j)) mid ts).1).uname sid =
        j.username.getD "") ∧
    (((stream_handle st sid (WsFrame.text (some j)) mid ts).1).messages =
      if st.uname sid ≠ "" ∧ st.uname sid ≠ j.username.getD "" then
        st.messages ++
          [{ id := mid, username := "sistema",
             message := st.uname sid ++ " agora é conhecido como " ++ j.username.getD "",
             timestamp := ts }]
      else st.messages) ∧
    (∀ a, ((stream_handle st sid (WsFrame.text (some j)) mid ts).1).inbox a =
      if st.uname sid ≠ "" ∧ st.uname sid ≠ j.username.getD "" then
        st.inbox a ++ List.replicate ((st.sessions.map Prod.snd).count a)
          { id := mid, username := "sistema",
            message := st.uname sid ++ " agora é conhecido como " ++ j.username.getD "",
            timestamp := ts }
      else st.inbox a) ∧
    ((stream_handle st sid (WsFrame.text (some j)) mid ts).2 = false) := by
  simp only [stream_handle, parseWebSocketMessage, ha, Option.getD_some]
  rw [if_neg (by decide : ¬ ("setUsername" : String) = "message")]
  rw [if_pos trivial]
  by_cases hc : st.uname sid ≠ "" ∧ st.uname sid ≠ j.username.getD ""
  · rw [if_pos hc, if_pos hc]
    refine ⟨by simp [broadcast_message, sendAll], rfl, ?_, rfl⟩
    intro a
    rw [if_pos hc]
    exact broadcast_message_inbox _ _ a
  · rw [if_neg hc, if_neg hc]
    refine ⟨by simp, rfl, ?_, rfl⟩
    intro a
    rw [if_neg hc]

/-- Witness for C6: renaming "alice" to "bob" on the concrete state. -/
theorem chat_C6_rename_witness :
    ((stream_handle demoSt "s1"
        (WsFrame.text (some { action := some "setUsername", message := none,
                              username := some "bob" })) "m1" 5).1).uname "s1" =
      (some "bob").getD "" ∧
    ((stream_handle demoSt "s1"
        (WsFrame.text (some { action := some "setUsername", message := none,
                              username := some "bob" })) "m1" 5).1).messages =
      (if demoSt.uname "s1" ≠ "" ∧ demoSt.uname "s1" ≠ (some "bob").getD "" then
        demoSt.messages ++
          [{ id := "m1", username := "sistema",
             message := demoSt.uname "s1" ++ " agora é conhecido como " ++
               (some "bob").getD "",
             timestamp := 5 }]
      else demoSt.messages) := by
  have h := chat_C6_rename demoSt "s1"
    { action := some "setUsername", message := none, username := some "bob" } "m1" 5 rfl
  exact ⟨h.1, h.2.1⟩

/-- Helper: an element of a non-trivial replicate block is a member of the
surrounding append. -/
theorem mem_append_replicate (l : List ChatMessage) (m : ChatMessage) (n : Nat)
    (h : 0 < n) : m ∈ l ++ List.replicate n m :=
  List.mem_append.mpr (Or.inr (List.mem_replicate.mpr ⟨Nat.pos_iff_ne_zero.mp h, rfl⟩))

/-- Claim C7: a "message" frame first defaults an empty display name to the
anonymous placeholder, then appends a ChatMessage with the given fresh id,
the effective display name as author, the given text and the given timestamp
to the history, and delivers it once to every currently registered session;
in particular the sender, when registered, receives its own message. -/
theorem chat_C7_broadcast (st : SysState) (sid : String) (j : JsonObj) (tx mid : String)
    (ts : Nat) (ha : j.action = some "message") (hm : j.message = some tx) :
    (((stream_handle st sid (WsFrame.text (some j)) mid ts).1).uname sid =
        effName st sid) ∧
    (∀ a, a ≠ sid →
      ((stream_handle st sid (WsFrame.text (some j)) mid ts).1).uname a = st.uname a) ∧
    (((stream_handle st sid (WsFrame.text (some j)) mid ts).1).messages =
      st.messages ++
        [{ id := mid, username := effName st sid, message := tx, timestamp := ts }]) ∧
    (∀ a, ((stream_handle st sid (WsFrame.text (some j)) mid ts).1).inbox a =
      st.inbox a ++ List.replicate ((st.sessions.map Prod.snd).count a)
        { id := mid, username := effName st sid, message := tx, timestamp := ts }) ∧
    (sid ∈ st.sessions.map Prod.snd →
      ({ id := mid, username := effName st sid, message := tx, timestamp := ts }
          : ChatMessage) ∈
        ((stream_handle st sid (WsFrame.text (some j)) mid ts).1).inbox sid) ∧
    ((stream_handle st sid (WsFrame.text (some j)) mid ts).2 = false) := by
  have hin : ∀ a, ((stream_handle st sid (WsFrame.text (some j)) mid ts).1).inbox a =
      st.inbox a ++ List.replicate ((st.sessions.map Prod.snd).count a)
        { id := mid, username := effName st sid, message := tx, timestamp := ts } := by
    intro a
    simp only [stream_handle, parseWebSocketMessage, ha, hm, Option.getD_some]
    rw [if_pos trivial]
    by_cases h : st.uname sid = ""
    · rw [if_pos h]
      have := broadcast_message_inbox
        { st with uname := fun a => if a = sid then "Anônimo" else st.uname a }
        { id := mid,
          username := (({ st with
            uname := fun a => if a = sid then "Anônimo" else st.uname a } : SysState)).uname
              sid,
          message := tx, timestamp := ts } a
      simpa [effName, h] using this
    · rw [if_neg h]
      have := broadcast_message_inbox st
        { id := mid, username := st.uname sid, message := tx, timestamp := ts } a
      simpa [effName, h] using this
  refine ⟨?_, ?_, ?_, hin, ?_, ?_⟩
  · simp only [stream_handle, parseWebSocketMessage, ha, hm, Option.getD_some]
    rw [if_pos trivial]
    by_cases h : st.uname sid = ""
    · rw [if_pos h]; simp [broadcast_message, effName, h]
    · rw [if_neg h]; simp [broadcast_message, effName, h]
  · intro a hne
    simp only [stream_handle, parseWebSocketMessage, ha, hm, Option.getD_some]
    rw [if_pos trivial]
    by_cases h : st.uname sid = ""
    · rw [if_pos h]; simp [broadcast_message, hne]
    · rw [if_neg h]; rfl
  · simp only [stream_handle, parseWebSocketMessage, ha, hm, Option.getD_some]
    rw [if_pos trivial]
    by_cases h : st.uname sid = ""
    · rw [if_pos h]; simp [broadcast_message, effName, h]
    · rw [if_neg h]; simp [broadcast_message, effName, h]
  · intro hmem
    rw [hin sid]
    exact mem_append_replicate _ _ _ (List.count_pos_iff.mpr hmem)
  · simp only [stream_handle, parseWebSocketMessage, ha, hm, Option.getD_some]
    rw [if_pos trivial]

/-- Witness for C7: "alice" sends "hi" on the concrete state and receives
her own echo. -/
theorem chat_C7_broadcast_witness :
    ((stream_handle demoSt "s1"
        (WsFrame.text (some { action := some "message", message := some "hi",
                              username := none })) "m1" 5).1).messages =
      demoSt.messages ++
        [{ id := "m1", username := effName demoSt "s1", message := "hi",
           timestamp := 5 }] ∧
    ({ id := "m1", username := effName demoSt "s1", message := "hi", timestamp := 5 }
        : ChatMessage) ∈
      ((stream_handle demoSt "s1"
          (WsFrame.text (some { action := some "message", message := some "hi",
                                username := none })) "m1" 5).1).inbox "s1" := by
  have h := chat_C7_broadcast demoSt "s1"
    { action := some "message", message := some "hi", username := none } "hi" "m1" 5
    rfl rfl
  exact ⟨h.2.2.1, h.2.2.2.2.1 (by decide)⟩

/-- Claim C8: a malformed text frame, or one whose decoded action is neither
"message" nor "setUsername", leaves the whole state unchanged (registry,
history, inboxes and display names) and does not trigger session teardown. -/
theorem chat_C8_discard (st : SysState) (sid : String) (j : JsonObj) (mid : String)
    (ts : Nat) (h1 : j.action.getD "" ≠ "message")
    (h2 : j.action.getD "" ≠ "setUsername") :
    stream_handle st sid (WsFrame.text none) mid ts = (st, false) ∧
    stream_handle st sid (WsFrame.text (some j)) mid ts = (st, false) := by
  refine ⟨rfl, ?_⟩
  simp only [stream_handle, parseWebSocketMessage]
  rw [if_neg h1, if_neg h2]

/-- Witness for C8 at a concrete unknown action. -/
theorem chat_C8_discard_witness :
    stream_handle demoSt "s1" (WsFrame.text none) "m1" 5 = (demoSt, false) ∧
    stream_handle demoSt "s1"
        (WsFrame.text (some { action := some "typing", message := none,
                              username := none })) "m1" 5 = (demoSt, false) :=
  chat_C8_discard demoSt "s1"
    { action := some "typing", message := none, username := none } "m1" 5
    (by decide) (by decide)

/-- Claim C9: every message that broadcast_message handles is appended to
the history buffer, the join and leave system notices (author "sistema")
included; in every step of the running system the messages delivered to any
inbox are among those appended to the history in that step, and on the
concrete trace the history interleaves system notices with chat messages. -/
theorem chat_C9_history_superset :
    (∀ (st : SysState) (m : ChatMessage),
      (broadcast_message st m).messages = st.messages ++ [m]) ∧
    (∀ (st : SysState) (sid u0 mid : String) (ts : Nat),
      (step st (Event.connect sid u0 mid ts)).messages =
        st.messages ++
          [{ id := mid, username := "sistema", message := u0 ++ " entrou no chat",
             timestamp := ts }]) ∧
    (∀ (st : SysState) (sid mid : String) (ts : Nat),
      (step st (Event.disconnect sid mid ts)).messages =
        st.messages ++ [leaveNotice st sid mid ts]) ∧
    (∀ (st : SysState) (e : Event), ∃ bs : List ChatMessage,
      (step st e).messages = st.messages ++ bs ∧
        ∀ a, ∃ rs : List ChatMessage,
          (step st e).inbox a = st.inbox a ++ rs ∧ rs ⊆ bs) ∧
    ((run init trace1).messages.map ChatMessage.username =
      ["sistema", "alice", "sistema"]) := by
  refine ⟨fun st m => rfl, ?_, fun st sid mid ts => rfl, ?_, by decide⟩
  · intro st sid u0 mid ts
    simp [step, session_started, broadcast_message]
  · intro st e
    cases e with
    | connect sid u0 mid ts =>
      refine ⟨[_], rfl, fun a => ⟨_, broadcast_message_inbox _ _ a, ?_⟩⟩
      exact replicate_subset_singleton _ _
    | disconnect sid mid ts =>
      refine ⟨[_], rfl, fun a => ⟨_, broadcast_message_inbox _ _ a, ?_⟩⟩
      exact replicate_subset_singleton _ _
    | frame sid f mid ts =>
      cases f with
      | text payload =>
        cases payload with
        | none =>
          exact ⟨[], by simp [step, stream_handle, parseWebSocketMessage],
            fun a => ⟨[], by simp [step, stream_handle, parseWebSocketMessage], by simp⟩⟩
        | some j =>
          simp only [step, stream_handle, parseWebSocketMessage]
          by_cases h1 : j.action.getD "" = "message"
          · rw [if_pos h1]
            by_cases h2 : st.uname sid = ""
            · rw [if_pos h2]
              refine ⟨[_], rfl, fun a => ⟨_, broadcast_message_inbox _ _ a, ?_⟩⟩
              exact replicate_subset_singleton _ _
            · rw [if_neg h2]
              refine ⟨[_], rfl, fun a => ⟨_, broadcast_message_inbox _ _ a, ?_⟩⟩
              exact replicate_subset_singleton _ _
          · rw [if_neg h1]
            by_cases h2 : j.action.getD "" = "setUsername"
            · rw [if_pos h2]
              by_cases h3 : st.uname sid ≠ "" ∧ st.uname sid ≠ j.username.getD ""
              · rw [if_pos h3]
                refine ⟨[_], rfl, fun a => ⟨_, broadcast_message_inbox _ _ a, ?_⟩⟩
                exact replicate_subset_singleton _ _
              · rw [if_neg h3]
                exact ⟨[], by simp, fun a => ⟨[], by simp, by simp⟩⟩
            · rw [if_neg h2]
              exact ⟨[], by simp, fun a => ⟨[], by simp, by simp⟩⟩
      | ping => exact ⟨[], by simp [step, stream_handle], fun a => ⟨[], by simp [step, stream_handle], by simp⟩⟩
      | close => exact ⟨[], by simp [step, stream_handle], fun a => ⟨[], by simp [step, stream_handle], by simp⟩⟩
      | other => exact ⟨[], by simp [step, stream_handle], fun a => ⟨[], by simp [step, stream_handle], by simp⟩⟩

/-- Claim C10: for a session whose display name is already the (non-empty)
given username, the inline "message" branch of the stream handler and the
ClientMessage handler of the hub produce identical server states when fed the
same text, fresh id and timestamp: same registry, same history, same
deliveries, and the inline path leaves every display name unchanged. -/
theorem chat_C10_equiv (st : SysState) (sid user tx mid : String) (ts : Nat)
    (jm : Option String) (h0 : user ≠ "") (h1 : st.uname sid = user) :
    (((stream_handle st sid
        (WsFrame.text (some { action := some "message", message := some tx,
                              username := jm })) mid ts).1).sessions =
      (handle_client_message st { id := sid, msg := tx, username := user } mid
        ts).sessions) ∧
    (((stream_handle st sid
        (WsFrame.text (some { action := some "message", message := some tx,
                              username := jm })) mid ts).1).messages =
      (handle_client_message st { id := sid, msg := tx, username := user } mid
        ts).messages) ∧
    (∀ a, ((stream_handle st sid
        (WsFrame.text (some { action := some "message", message := some tx,
                              username := jm })) mid ts).1).inbox a =
      (handle_client_message st { id := sid, msg := tx, username := user } mid
        ts).inbox a) ∧
    (∀ a, ((stream_handle st sid
        (WsFrame.text (some { action := some "message", message := some tx,
                              username := jm })) mid ts).1).uname a = st.uname a) := by
  have hne : ¬ st.uname sid = "" := by rw [h1]; exact h0
  simp only [stream_handle, parseWebSocketMessage, Option.getD_some,
    handle_client_message]
  rw [if_pos trivial, if_neg hne]
  refine ⟨rfl, ?_, ?_, fun a => rfl⟩
  · simp [broadcast_message, h1]
  · intro a
    rw [h1]

/-- Witness for C10 on the concrete state: both paths append the same
message for "alice" and deliver the same inbox content. -/
theorem chat_C10_equiv_witness :
    ((stream_handle demoSt "s1"
        (WsFrame.text (some { action := some "message", message := some "hi",
                              username := none })) "m1" 5).1).messages =
      (handle_client_message demoSt { id := "s1", msg := "hi", username := "alice" }
        "m1" 5).messages ∧
    ((stream_handle demoSt "s1"
        (WsFrame.text (some { action := some "message", message := some "hi",
                              username := none })) "m1" 5).1).inbox "s1" =
      (handle_client_message demoSt { id := "s1", msg := "hi", username := "alice" }
        "m1" 5).inbox "s1" := by
  have h := chat_C10_equiv demoSt "s1" "alice" "hi" "m1" 5 none (by decide) (by decide)
  exact ⟨h.2.1, h.2.2.1 "s1"⟩
